import Mathlib

/-!
Verification of the hardware-register access layer of the AltOS-Rust
cortex-m0 support library, shallowly embedded in Lean 4.

Register words are modelled as `Nat` values; every register is 32 bits
wide, and the Rust read-modify-write idiom

    self.0 &= !(MASK); self.0 |= bits;

is embedded as `setField MASK bits w`, where the complement is taken
inside the 32-bit word (`0xFFFFFFFF ^^^ MASK`), exactly as `!` acts on a
Rust `u32` mask.
-/

/-- Mask of all 32 bits of a register word, `u32::MAX`. -/
def MASK32 : Nat := 0xFFFFFFFF

/-- Bitwise complement of a 32-bit mask, as Rust `!mask` on a `u32`. -/
def compl32 (m : Nat) : Nat := MASK32 ^^^ m

/-- Read-modify-write update of a register word: clear the bits of
`mask`, then OR in `bits`.  This is the shape of every setter in
`src/peripheral/usart/control.rs` (`self.0 &= !(MASK); self.0 |= bits`). -/
def setField (mask bits w : Nat) : Nat := (w &&& compl32 mask) ||| bits

lemma testBit_MASK32 (i : Nat) : MASK32.testBit i = decide (i < 32) := by
  have h : MASK32 = 2 ^ 32 - 1 := by norm_num [MASK32]
  rw [h, Nat.testBit_two_pow_sub_one]

lemma testBit_compl32 (m i : Nat) :
    (compl32 m).testBit i = (decide (i < 32)).xor (m.testBit i) := by
  rw [compl32, Nat.testBit_xor, testBit_MASK32]

lemma testBit_setField (mask bits w i : Nat) :
    (setField mask bits w).testBit i =
      ((w.testBit i && ((decide (i < 32)).xor (mask.testBit i))) || bits.testBit i) := by
  rw [setField, Nat.testBit_lor, Nat.testBit_land, testBit_compl32]

/-- Bits set in `b` are a subset of bits set in `m`, extracted from the
computable fact `b &&& m = b`. -/
lemma subset_of_land_eq {b m : Nat} (h : b &&& m = b) :
    ∀ i, b.testBit i = true → m.testBit i = true := by
  intro i hb
  have h2 : (b &&& m).testBit i = b.testBit i := by rw [h]
  rw [Nat.testBit_land, hb] at h2
  simpa using h2

/-- Bit `i` of a value below `2 ^ n` is clear for every `i ≥ n`. -/
lemma testBit_eq_false_of_lt_pow {m n i : Nat} (hm : m < 2 ^ n) (h : n ≤ i) :
    m.testBit i = false :=
  Nat.testBit_eq_false_of_lt (lt_of_lt_of_le hm (Nat.pow_le_pow_right (by omega) h))

/-- A bit set in a mask below `2 ^ 32` has index below 32. -/
lemma lt32_of_testBit {m i : Nat} (hm : m < 2 ^ 32) (h : m.testBit i = true) :
    i < 32 := by
  by_contra hi
  rw [testBit_eq_false_of_lt_pow hm (by omega)] at h
  exact Bool.false_ne_true h

/-- Frame rule of a read-modify-write update: a bit outside the cleared
mask and outside the written bits is unchanged. -/
lemma setField_testBit_frame (mask bits w i : Nat) (hi : i < 32)
    (hm : mask.testBit i = false) (hb : bits.testBit i = false) :
    (setField mask bits w).testBit i = w.testBit i := by
  rw [testBit_setField, hm, hb]
  simp [hi]

/-- A bit inside the cleared mask is, after the update, exactly the
corresponding bit of the written value. -/
lemma setField_testBit_in (mask bits w i : Nat) (hi : i < 32)
    (hm : mask.testBit i = true) :
    (setField mask bits w).testBit i = bits.testBit i := by
  rw [testBit_setField, hm]
  simp [hi]

/-- Restricting an updated word to its own mask recovers exactly the
written bits, independently of the starting word. -/
lemma setField_land_mask (mask bits w : Nat) (hmask : mask < 2 ^ 32)
    (hsub : bits &&& mask = bits) :
    setField mask bits w &&& mask = bits := by
  apply Nat.eq_of_testBit_eq
  intro i
  rw [Nat.testBit_land]
  by_cases hm : mask.testBit i = true
  · rw [setField_testBit_in mask bits w i (lt32_of_testBit hmask hm) hm, hm,
      Bool.and_true]
  · have hm' : mask.testBit i = false := by simpa using hm
    have hb : bits.testBit i = false := by
      by_contra hb'
      have := subset_of_land_eq hsub i (by simpa using hb')
      simp [this] at hm'
    rw [hm', Bool.and_false, hb]

/-- Overwrite law: updating the same field twice is the same as doing
only the second update, provided the first written value stays inside
the mask (true of every setter: the value comes from a match over the
field's enumeration). -/
lemma setField_overwrite (mask b1 b2 w : Nat) (hmask : mask < 2 ^ 32)
    (hsub : b1 &&& mask = b1) :
    setField mask b2 (setField mask b1 w) = setField mask b2 w := by
  apply Nat.eq_of_testBit_eq
  intro i
  rw [testBit_setField, testBit_setField, testBit_setField]
  by_cases hm : mask.testBit i = true
  · have hi : i < 32 := lt32_of_testBit hmask hm
    simp [hm, hi]
  · have hm' : mask.testBit i = false := by simpa using hm
    have hb1 : b1.testBit i = false := by
      by_contra hb'
      have := subset_of_land_eq hsub i (by simpa using hb')
      simp [this] at hm'
    by_cases hi : i < 32 <;> simp [hm', hb1, hi]

/-! ## USART control registers (`src/peripheral/usart/control.rs`)

Bit-position constants of the missing `usart/defs` module.  Their values
are fixed inside `src/peripheral/usart/control.rs` itself: each setter's
register documentation names the bit positions, and the unit tests at the
bottom of the file assert the exact words produced from a zero register. -/

def CR1_UE : Nat := 0x1
def CR1_RE : Nat := 0x4
def CR1_TE : Nat := 0x8
def CR1_RXNEIE : Nat := 0x20
def CR1_TCIE : Nat := 0x40
def CR1_TXEIE : Nat := 0x80
def CR1_PS : Nat := 0x200
def CR1_PCE : Nat := 0x400
def CR1_M0 : Nat := 0x1000
def CR1_OVER8 : Nat := 0x8000
def CR1_M1 : Nat := 0x10000000
def CR2_STOP_BIT0 : Nat := 0x1000
def CR2_STOP_BIT1 : Nat := 0x2000
def CR3_DMAR : Nat := 0x40
def CR3_DMAT : Nat := 0x80
def CR3_RTSE : Nat := 0x100
def CR3_CTSE : Nat := 0x200

/-- Hardware flow control configurations of the USART (`CR3`). -/
inductive HardwareFlowControl where
  | None
  | Rts
  | Cts
  | All
deriving DecidableEq

/-- Parity configurations of the USART (`CR1`). -/
inductive Parity where
  | None
  | Even
  | Odd
deriving DecidableEq

/-- Stop-length configurations of the USART (`CR2`). -/
inductive StopLength where
  | Half
  | One
  | OneAndHalf
  | Two
deriving DecidableEq

/-- Word-length configurations of the USART (`CR1`). -/
inductive WordLength where
  | Seven
  | Eight
  | Nine
deriving DecidableEq

/-- Receive/transmit mode configurations of the USART (`CR1`). -/
inductive Mode where
  | None
  | Receive
  | Transmit
  | All
deriving DecidableEq

/-- DMA mode configurations of the USART (`CR3`). -/
inductive DMAMode where
  | None
  | Receive
  | Transmit
  | All
deriving DecidableEq

namespace CR1

/-- Mask computed by the `match` in `CR1::set_mode`. -/
def modeMask : Mode → Nat
  | Mode.None => 0
  | Mode.Receive => CR1_RE
  | Mode.Transmit => CR1_TE
  | Mode.All => CR1_RE ||| CR1_TE

/-- CR1::set_mode — clears RE and TE, then ORs the mode mask. -/
def set_mode (w : Nat) (mode : Mode) : Nat :=
  setField (CR1_RE ||| CR1_TE) (modeMask mode) w

/-- Mask computed by the `match` in `CR1::set_parity`. -/
def parityMask : Parity → Nat
  | Parity.None => 0
  | Parity.Even => CR1_PCE
  | Parity.Odd => CR1_PS ||| CR1_PCE

/-- CR1::set_parity — clears PS and PCE, then ORs the parity mask. -/
def set_parity (w : Nat) (parity : Parity) : Nat :=
  setField (CR1_PS ||| CR1_PCE) (parityMask parity) w

/-- Mask computed by the `match` in `CR1::set_word_length`. -/
def wordLengthMask : WordLength → Nat
  | WordLength.Seven => CR1_M1
  | WordLength.Eight => 0
  | WordLength.Nine => CR1_M0

/-- CR1::set_word_length — clears M0 and M1, then ORs the length mask. -/
def set_word_length (w : Nat) (length : WordLength) : Nat :=
  setField (CR1_M0 ||| CR1_M1) (wordLengthMask length) w

/-- CR1::enable_usart — clears UE, then sets it again when enabling. -/
def enable_usart (w : Nat) (enable : Bool) : Nat :=
  setField CR1_UE (if enable then CR1_UE else 0) w

/-- CR1::set_receiver_not_empty_interrupt — clears RXNEIE, sets it when enabling. -/
def set_receiver_not_empty_interrupt (w : Nat) (enable : Bool) : Nat :=
  setField CR1_RXNEIE (if enable then CR1_RXNEIE else 0) w

/-- CR1::set_transmit_complete_interrupt — clears TCIE, sets it when enabling. -/
def set_transmit_complete_interrupt (w : Nat) (enable : Bool) : Nat :=
  setField CR1_TCIE (if enable then CR1_TCIE else 0) w

/-- CR1::set_transmit_interrupt — clears TXEIE, sets it when enabling. -/
def set_transmit_interrupt (w : Nat) (enable : Bool) : Nat :=
  setField CR1_TXEIE (if enable then CR1_TXEIE else 0) w

/-- CR1::set_over8 — clears OVER8, sets it when enabling. -/
def set_over8 (w : Nat) (enable : Bool) : Nat :=
  setField CR1_OVER8 (if enable then CR1_OVER8 else 0) w

end CR1

namespace CR2

/-- Mask computed by the `match` in `CR2::set_stop_bits`. -/
def stopMask : StopLength → Nat
  | StopLength.Half => CR2_STOP_BIT0
  | StopLength.One => 0
  | StopLength.OneAndHalf => CR2_STOP_BIT0 ||| CR2_STOP_BIT1
  | StopLength.Two => CR2_STOP_BIT1

/-- CR2::set_stop_bits — clears STOP_BIT0 and STOP_BIT1, then ORs the mask. -/
def set_stop_bits (w : Nat) (length : StopLength) : Nat :=
  setField (CR2_STOP_BIT0 ||| CR2_STOP_BIT1) (stopMask length) w

end CR2

namespace CR3

/-- Mask computed by the `match` in `CR3::set_dma_mode`. -/
def dmaModeMask : DMAMode → Nat
  | DMAMode.None => 0
  | DMAMode.Receive => CR3_DMAR
  | DMAMode.Transmit => CR3_DMAT
  | DMAMode.All => CR3_DMAR ||| CR3_DMAT

/-- CR3::set_dma_mode — clears DMAR and DMAT, then ORs the mode mask. -/
def set_dma_mode (w : Nat) (mode : DMAMode) : Nat :=
  setField (CR3_DMAR ||| CR3_DMAT) (dmaModeMask mode) w

/-- Mask computed by the `match` in `CR3::set_hardware_flow_control`. -/
def hfcMask : HardwareFlowControl → Nat
  | HardwareFlowControl.None => 0
  | HardwareFlowControl.Rts => CR3_RTSE
  | HardwareFlowControl.Cts => CR3_CTSE
  | HardwareFlowControl.All => CR3_RTSE ||| CR3_CTSE

/-- CR3::set_hardware_flow_control — clears RTSE and CTSE, then ORs the mask. -/
def set_hardware_flow_control (w : Nat) (hfc : HardwareFlowControl) : Nat :=
  setField (CR3_RTSE ||| CR3_CTSE) (hfcMask hfc) w

end CR3

/-- Two-bit stop-length encoding the claim states for the field at bit
offset 12: `Half = 0b01`, `One = 0b00`, `OneAndHalf = 0b11`, `Two = 0b10`. -/
def stopEncoding : StopLength → Nat
  | StopLength.Half => 1
  | StopLength.One => 0
  | StopLength.OneAndHalf => 3
  | StopLength.Two => 2

/-- C4: for every starting control word, `CR2::set_stop_bits` clears
exactly the two stop-bit positions (12 and 13) and writes the encoding
`Half = 0b01`, `One = 0b00`, `OneAndHalf = 0b11`, `Two = 0b10` into the
2-bit field at bit offset 12, leaving all other bits unchanged; on a
zero word the results are `1 <<< 12`, `0`, `3 <<< 12` and `1 <<< 13`. -/
theorem C4_set_stop_bits_encoding (w : Nat) (length : StopLength) :
    (CR2.set_stop_bits w length &&& (CR2_STOP_BIT0 ||| CR2_STOP_BIT1)
        = stopEncoding length <<< 12)
    ∧ (∀ i, i < 32 → i ≠ 12 → i ≠ 13 →
        (CR2.set_stop_bits w length).testBit i = w.testBit i)
    ∧ (CR2.set_stop_bits 0 StopLength.Half = 1 <<< 12
        ∧ CR2.set_stop_bits 0 StopLength.One = 0
        ∧ CR2.set_stop_bits 0 StopLength.OneAndHalf = 3 <<< 12
        ∧ CR2.set_stop_bits 0 StopLength.Two = 1 <<< 13) := by
  refine ⟨?_, ?_, by decide⟩
  · have h := setField_land_mask (CR2_STOP_BIT0 ||| CR2_STOP_BIT1)
      (CR2.stopMask length) w (by decide) (by cases length <;> decide)
    rw [CR2.set_stop_bits, h]
    cases length <;> decide
  · intro i hi h12 h13
    apply setField_testBit_frame _ _ _ _ hi
    · rcases Nat.lt_or_ge i 14 with h | h
      · interval_cases i <;> simp_all <;> decide
      · exact testBit_eq_false_of_lt_pow (show (CR2_STOP_BIT0 ||| CR2_STOP_BIT1) < 2 ^ 14 by decide) h
    · have hsub : CR2.stopMask length &&& (CR2_STOP_BIT0 ||| CR2_STOP_BIT1)
          = CR2.stopMask length := by cases length <;> decide
      by_contra hb
      have hmem := subset_of_land_eq hsub i (by simpa using hb)
      rcases Nat.lt_or_ge i 14 with h | h
      · interval_cases i <;> simp_all <;> revert hmem <;> decide
      · rw [testBit_eq_false_of_lt_pow (show (CR2_STOP_BIT0 ||| CR2_STOP_BIT1) < 2 ^ 14 by decide) h] at hmem
        exact Bool.false_ne_true hmem

/-- C4 witness: the frame part of the stop-bit theorem at a concrete
word, field and bit index. -/
theorem C4_set_stop_bits_encoding_witness :
    (CR2.set_stop_bits 0xFFFF StopLength.Two).testBit 5 = Nat.testBit 0xFFFF 5 :=
  (C4_set_stop_bits_encoding 0xFFFF StopLength.Two).2.1 5 (by decide) (by decide)
    (by decide)

lemma testBit_M0_lor_M1 (i : Nat) :
    (CR1_M0 ||| CR1_M1).testBit i = (decide (12 = i) || decide (28 = i)) := by
  have h0 : CR1_M0 = 2 ^ 12 := by norm_num [CR1_M0]
  have h1 : CR1_M1 = 2 ^ 28 := by norm_num [CR1_M1]
  rw [Nat.testBit_lor, h0, h1, Nat.testBit_two_pow, Nat.testBit_two_pow]

/-- C8: for every starting control word, `CR1::set_word_length` clears
exactly bit positions 12 and 28 and writes the encoding `Seven = bit 28
set, bit 12 clear`, `Eight = both clear`, `Nine = bit 12 set, bit 28
clear`, leaving all other bits unchanged. -/
theorem C8_set_word_length_encoding (w : Nat) (length : WordLength) :
    ((CR1.set_word_length w length).testBit 28 = decide (length = WordLength.Seven)
      ∧ (CR1.set_word_length w length).testBit 12 = decide (length = WordLength.Nine))
    ∧ (∀ i, i < 32 → i ≠ 12 → i ≠ 28 →
        (CR1.set_word_length w length).testBit i = w.testBit i) := by
  refine ⟨⟨?_, ?_⟩, ?_⟩
  · rw [CR1.set_word_length, setField_testBit_in _ _ _ 28 (by decide) (by decide)]
    cases length <;> decide
  · rw [CR1.set_word_length, setField_testBit_in _ _ _ 12 (by decide) (by decide)]
    cases length <;> decide
  · intro i hi h12 h28
    apply setField_testBit_frame _ _ _ _ hi
    · rw [testBit_M0_lor_M1]
      simp [Ne.symm h12, Ne.symm h28]
    · cases length with
      | Seven =>
          show CR1_M1.testBit i = false
          rw [show CR1_M1 = 2 ^ 28 by norm_num [CR1_M1], Nat.testBit_two_pow]
          simp [Ne.symm h28]
      | Eight => simp [CR1.wordLengthMask]
      | Nine =>
          show CR1_M0.testBit i = false
          rw [show CR1_M0 = 2 ^ 12 by norm_num [CR1_M0], Nat.testBit_two_pow]
          simp [Ne.symm h12]

/-- C8 witness: the frame part of the word-length theorem at a concrete
word, field and bit index. -/
theorem C8_set_word_length_encoding_witness :
    (CR1.set_word_length 0xF0F0 WordLength.Nine).testBit 4 = Nat.testBit 0xF0F0 4 :=
  (C8_set_word_length_encoding 0xF0F0 WordLength.Nine).2 4 (by decide) (by decide)
    (by decide)

/-- One field-setting operation of the CR1 control word, as the source
defines them: each constructor is one setter of `impl CR1` together with
its argument. -/
inductive CR1Setter where
  | enableUsart (enable : Bool)
  | setMode (mode : Mode)
  | setReceiverNotEmptyInterrupt (enable : Bool)
  | setTransmitCompleteInterrupt (enable : Bool)
  | setTransmitInterrupt (enable : Bool)
  | setParity (parity : Parity)
  | setWordLength (length : WordLength)
  | setOver8 (enable : Bool)

/-- Run one CR1 setter on a control word, delegating to the embedded
source setters. -/
def CR1Setter.apply : CR1Setter → Nat → Nat
  | CR1Setter.enableUsart b, w => CR1.enable_usart w b
  | CR1Setter.setMode m, w => CR1.set_mode w m
  | CR1Setter.setReceiverNotEmptyInterrupt b, w => CR1.set_receiver_not_empty_interrupt w b
  | CR1Setter.setTransmitCompleteInterrupt b, w => CR1.set_transmit_complete_interrupt w b
  | CR1Setter.setTransmitInterrupt b, w => CR1.set_transmit_interrupt w b
  | CR1Setter.setParity p, w => CR1.set_parity w p
  | CR1Setter.setWordLength l, w => CR1.set_word_length w l
  | CR1Setter.setOver8 b, w => CR1.set_over8 w b

/-- The mask each CR1 setter clears: the field span of the setter, read
off the `self.0 &= !(...)` line of the source. -/
def CR1Setter.mask : CR1Setter → Nat
  | CR1Setter.enableUsart _ => CR1_UE
  | CR1Setter.setMode _ => CR1_RE ||| CR1_TE
  | CR1Setter.setReceiverNotEmptyInterrupt _ => CR1_RXNEIE
  | CR1Setter.setTransmitCompleteInterrupt _ => CR1_TCIE
  | CR1Setter.setTransmitInterrupt _ => CR1_TXEIE
  | CR1Setter.setParity _ => CR1_PS ||| CR1_PCE
  | CR1Setter.setWordLength _ => CR1_M0 ||| CR1_M1
  | CR1Setter.setOver8 _ => CR1_OVER8

/-- The bits each CR1 setter ORs in after clearing its mask. -/
def CR1Setter.bits : CR1Setter → Nat
  | CR1Setter.enableUsart b => if b then CR1_UE else 0
  | CR1Setter.setMode m => CR1.modeMask m
  | CR1Setter.setReceiverNotEmptyInterrupt b => if b then CR1_RXNEIE else 0
  | CR1Setter.setTransmitCompleteInterrupt b => if b then CR1_TCIE else 0
  | CR1Setter.setTransmitInterrupt b => if b then CR1_TXEIE else 0
  | CR1Setter.setParity p => CR1.parityMask p
  | CR1Setter.setWordLength l => CR1.wordLengthMask l
  | CR1Setter.setOver8 b => if b then CR1_OVER8 else 0

lemma CR1Setter.apply_eq (s : CR1Setter) (w : Nat) :
    s.apply w = setField s.mask s.bits w := by
  cases s <;> rfl

lemma CR1Setter.bits_sub (s : CR1Setter) : s.bits &&& s.mask = s.bits := by
  cases s with
  | enableUsart b => cases b <;> decide
  | setMode m => cases m <;> decide
  | setReceiverNotEmptyInterrupt b => cases b <;> decide
  | setTransmitCompleteInterrupt b => cases b <;> decide
  | setTransmitInterrupt b => cases b <;> decide
  | setParity p => cases p <;> decide
  | setWordLength l => cases l <;> decide
  | setOver8 b => cases b <;> decide

/-- C7: for every starting CR1 control word, running one setter and
then a second setter whose field span is disjoint from the first leaves
every bit of the first setter's span exactly as the first setter wrote
it, and leaves every bit outside both spans unchanged. -/
theorem C7_cr1_non_interference (s1 s2 : CR1Setter)
    (hdisj : s1.mask &&& s2.mask = 0) (w i : Nat) (hi : i < 32) :
    ((s1.mask).testBit i = true →
      (s2.apply (s1.apply w)).testBit i = (s1.apply w).testBit i)
    ∧ ((s1.mask).testBit i = false → (s2.mask).testBit i = false →
      (s2.apply (s1.apply w)).testBit i = w.testBit i) := by
  constructor
  · intro h1
    have h0 : (s1.mask &&& s2.mask).testBit i = false := by rw [hdisj]; simp
    rw [Nat.testBit_land, h1, Bool.true_and] at h0
    have hb2 : (s2.bits).testBit i = false := by
      by_contra hb
      have := subset_of_land_eq (CR1Setter.bits_sub s2) i (by simpa using hb)
      simp [this] at h0
    rw [CR1Setter.apply_eq s2, setField_testBit_frame _ _ _ _ hi h0 hb2]
  · intro h1 h2
    have hb1 : (s1.bits).testBit i = false := by
      by_contra hb
      have := subset_of_land_eq (CR1Setter.bits_sub s1) i (by simpa using hb)
      simp [this] at h1
    have hb2 : (s2.bits).testBit i = false := by
      by_contra hb
      have := subset_of_land_eq (CR1Setter.bits_sub s2) i (by simpa using hb)
      simp [this] at h2
    rw [CR1Setter.apply_eq s2, setField_testBit_frame _ _ _ _ hi h2 hb2,
      CR1Setter.apply_eq s1, setField_testBit_frame _ _ _ _ hi h1 hb1]

/-- C7 witness: set_parity Odd then set_mode All on the word `0xFFFF`,
looking at parity bit 9 — the parity value written by the first setter
survives the second. -/
theorem C7_cr1_non_interference_witness :
    ((CR1Setter.setMode Mode.All).apply
        ((CR1Setter.setParity Parity.Odd).apply 0xFFFF)).testBit 9 =
      ((CR1Setter.setParity Parity.Odd).apply 0xFFFF).testBit 9 :=
  (C7_cr1_non_interference (CR1Setter.setParity Parity.Odd)
    (CR1Setter.setMode Mode.All) (by decide) 0xFFFF 9 (by decide)).1 (by decide)

/-- C10: every USART control-word setter obeys the overwrite law — for
every starting word, applying the setter with argument `u` and then with
argument `v` yields the same word as applying it once with `v`. -/
theorem C10_setter_overwrite (w : Nat) :
    (∀ u v, CR1.enable_usart (CR1.enable_usart w u) v = CR1.enable_usart w v)
    ∧ (∀ u v, CR1.set_mode (CR1.set_mode w u) v = CR1.set_mode w v)
    ∧ (∀ u v, CR1.set_receiver_not_empty_interrupt
        (CR1.set_receiver_not_empty_interrupt w u) v
        = CR1.set_receiver_not_empty_interrupt w v)
    ∧ (∀ u v, CR1.set_transmit_complete_interrupt
        (CR1.set_transmit_complete_interrupt w u) v
        = CR1.set_transmit_complete_interrupt w v)
    ∧ (∀ u v, CR1.set_transmit_interrupt (CR1.set_transmit_interrupt w u) v
        = CR1.set_transmit_interrupt w v)
    ∧ (∀ u v, CR1.set_parity (CR1.set_parity w u) v = CR1.set_parity w v)
    ∧ (∀ u v, CR1.set_word_length (CR1.set_word_length w u) v
        = CR1.set_word_length w v)
    ∧ (∀ u v, CR1.set_over8 (CR1.set_over8 w u) v = CR1.set_over8 w v)
    ∧ (∀ u v, CR2.set_stop_bits (CR2.set_stop_bits w u) v = CR2.set_stop_bits w v)
    ∧ (∀ u v, CR3.set_dma_mode (CR3.set_dma_mode w u) v = CR3.set_dma_mode w v)
    ∧ (∀ u v, CR3.set_hardware_flow_control
        (CR3.set_hardware_flow_control w u) v
        = CR3.set_hardware_flow_control w v) := by
  refine ⟨?_, ?_, ?_, ?_, ?_, ?_, ?_, ?_, ?_, ?_, ?_⟩ <;> intro u v
  · exact setField_overwrite _ _ _ w (by decide) (by cases u <;> decide)
  · exact setField_overwrite _ _ _ w (by decide) (by cases u <;> decide)
  · exact setField_overwrite _ _ _ w (by decide) (by cases u <;> decide)
  · exact setField_overwrite _ _ _ w (by decide) (by cases u <;> decide)
  · exact setField_overwrite _ _ _ w (by decide) (by cases u <;> decide)
  · exact setField_overwrite _ _ _ w (by decide) (by cases u <;> decide)
  · exact setField_overwrite _ _ _ w (by decide) (by cases u <;> decide)
  · exact setField_overwrite _ _ _ w (by decide) (by cases u <;> decide)
  · exact setField_overwrite _ _ _ w (by decide) (by cases u <;> decide)
  · exact setField_overwrite _ _ _ w (by decide) (by cases u <;> decide)
  · exact setField_overwrite _ _ _ w (by decide) (by cases u <;> decide)

/-! ## Interrupt control and state register (`src/system_control/icsr.rs`)

Bit constants of the missing `system_control/defs` module; their values
are pinned by the unit tests inside `icsr.rs` (`set_pend_sv` on a zero
word gives `1 << 28`, `clear_pend_sv` gives `1 << 27`). -/

def ICSR_PENDSVSET : Nat := 0x10000000
def ICSR_PENDSVCLR : Nat := 0x8000000

namespace ICSR

/-- ICSR::set_pend_sv — `self.0 |= ICSR_PENDSVSET`. -/
def set_pend_sv (w : Nat) : Nat := w ||| ICSR_PENDSVSET

/-- ICSR::clear_pend_sv — `self.0 |= ICSR_PENDSVCLR`. -/
def clear_pend_sv (w : Nat) : Nat := w ||| ICSR_PENDSVCLR

end ICSR

/-- C9: for every starting ICSR word, `set_pend_sv` ORs in only bit 28
and `clear_pend_sv` ORs in only bit 27; neither operation clears any
bit, so `clear_pend_sv` after `set_pend_sv` leaves bit 28 set. -/
theorem C9_icsr_write_one_bits (w : Nat) :
    ((ICSR.set_pend_sv w).testBit 28 = true
      ∧ ∀ i, i ≠ 28 → (ICSR.set_pend_sv w).testBit i = w.testBit i)
    ∧ ((ICSR.clear_pend_sv w).testBit 27 = true
      ∧ ∀ i, i ≠ 27 → (ICSR.clear_pend_sv w).testBit i = w.testBit i)
    ∧ (∀ i, w.testBit i = true → (ICSR.set_pend_sv w).testBit i = true
        ∧ (ICSR.clear_pend_sv w).testBit i = true)
    ∧ (ICSR.clear_pend_sv (ICSR.set_pend_sv w)).testBit 28 = true := by
  have hset : ICSR_PENDSVSET = 2 ^ 28 := by norm_num [ICSR_PENDSVSET]
  have hclr : ICSR_PENDSVCLR = 2 ^ 27 := by norm_num [ICSR_PENDSVCLR]
  refine ⟨⟨?_, ?_⟩, ⟨?_, ?_⟩, ?_, ?_⟩
  · rw [ICSR.set_pend_sv, Nat.testBit_lor, hset, Nat.testBit_two_pow]
    simp
  · intro i hi
    rw [ICSR.set_pend_sv, Nat.testBit_lor, hset, Nat.testBit_two_pow]
    simp [Ne.symm hi]
  · rw [ICSR.clear_pend_sv, Nat.testBit_lor, hclr, Nat.testBit_two_pow]
    simp
  · intro i hi
    rw [ICSR.clear_pend_sv, Nat.testBit_lor, hclr, Nat.testBit_two_pow]
    simp [Ne.symm hi]
  · intro i hw
    constructor
    · rw [ICSR.set_pend_sv, Nat.testBit_lor, hw]
      simp
    · rw [ICSR.clear_pend_sv, Nat.testBit_lor, hw]
      simp
  · rw [ICSR.clear_pend_sv, ICSR.set_pend_sv, Nat.testBit_lor, Nat.testBit_lor,
      hset, Nat.testBit_two_pow]
    simp

/-! ## Reset and clock controller (`src/peripheral/rcc/mod.rs`)

The RCC façade in `src/` delegates to submodules (`clock_control.rs`,
`config.rs`, `enable.rs`) that are not part of the given source tree, so
the clock-domain state and its operations are modelled from the spec
(spec sections 3, 4.4 and 8). -/

/-- Modelled from the spec: the named oscillator/multiplier sources the
spec admits as system-clock or PLL sources — high-speed internal,
high-speed external, phase-locked loop, and the internal 48 MHz source
(the missing `clock_control.rs` declares the `Clock` enumeration). -/
inductive Clock where
  | HSI
  | HSI48
  | HSE
  | PLL
deriving DecidableEq

/-- Modelled from the spec: the clock-domain state the missing RCC
submodules track — per-clock enable bits, the current system-clock
source and PLL source, the PLL multiplier and prediv factor, and the
one cached derived value, the system clock rate. -/
structure RCCState where
  enabled : Clock → Bool
  systemSource : Clock
  pllSource : Clock
  pllMultiplier : Nat
  pllPredivFactor : Nat
  clockRate : Nat

/-- Modelled from the spec: base rates of the source clocks; the spec
fixes HSE at 8 MHz (the section-8 scenario) and the internal 48 MHz
source at 48 MHz; HSI is the 8 MHz internal oscillator of the target
chip. The PLL has no base rate of its own — the derived-rate rule never
consults it. -/
def base_rate : Clock → Nat
  | Clock.HSI => 8000000
  | Clock.HSI48 => 48000000
  | Clock.HSE => 8000000
  | Clock.PLL => 0

/-- Modelled from the spec: `disable_clock(c)` of the missing
`clock_control.rs` — a no-op returning false when `c` is the current
system-clock source or PLL source, otherwise it clears `c`'s enable bit
and returns true; it is total (returning a boolean, never aborting). -/
def disable_clock (s : RCCState) (c : Clock) : RCCState × Bool :=
  if c = s.systemSource ∨ c = s.pllSource then (s, false)
  else ({ s with enabled := fun k => if k = c then false else s.enabled k }, true)

/-- Modelled from the spec: the derived-rate recomputation rule of
section 4.4 — `base_rate(systemSource)` when the system source is not
the PLL, else `base_rate(pllSource) * multiplier / prediv`. -/
def recompute_rate (s : RCCState) : Nat :=
  if s.systemSource = Clock.PLL then
    base_rate s.pllSource * s.pllMultiplier / s.pllPredivFactor
  else base_rate s.systemSource

/-- Modelled from the spec: `update_system_clock_rate` of the missing
`clock_control::clock_rate` module — stores the recomputed rate in the
one cached derived value. -/
def update_system_clock_rate (s : RCCState) : RCCState :=
  { s with clockRate := recompute_rate s }

/-- RCC::get_system_clock_rate — returns the cached derived value. -/
def get_system_clock_rate (s : RCCState) : Nat := s.clockRate

/-- RCC::set_system_clock_source — writes the new source, then
recomputes the cached rate (the `dsb` barrier between the two is
modelled by the event trace below). -/
def set_system_clock_source (s : RCCState) (c : Clock) : RCCState :=
  update_system_clock_rate { s with systemSource := c }

/-- C1: `disable_clock(c)` is a no-op returning false when `c` is the
current system-clock source or the current PLL source; otherwise it
clears exactly `c`'s enable bit, changes nothing else, and returns
true. It is a total function of the state, so it never aborts. -/
theorem C1_disable_clock (s : RCCState) (c : Clock) :
    (c = s.systemSource ∨ c = s.pllSource → disable_clock s c = (s, false))
    ∧ (c ≠ s.systemSource → c ≠ s.pllSource →
        (disable_clock s c).2 = true
        ∧ ((disable_clock s c).1).enabled c = false
        ∧ (∀ k, k ≠ c → ((disable_clock s c).1).enabled k = s.enabled k)
        ∧ ((disable_clock s c).1).systemSource = s.systemSource
        ∧ ((disable_clock s c).1).pllSource = s.pllSource
        ∧ ((disable_clock s c).1).pllMultiplier = s.pllMultiplier
        ∧ ((disable_clock s c).1).pllPredivFactor = s.pllPredivFactor
        ∧ ((disable_clock s c).1).clockRate = s.clockRate) := by
  constructor
  · intro h
    simp [disable_clock, h]
  · intro h1 h2
    have hcond : ¬(c = s.systemSource ∨ c = s.pllSource) := by tauto
    refine ⟨?_, ?_, ?_, ?_, ?_, ?_, ?_, ?_⟩ <;>
      simp [disable_clock, hcond]
    intro k hk
    simp [hk]

/-- C2: after recomputation the cached system clock rate follows the
derived-rate rule — `base_rate(systemSource)` when the source is not
the PLL, else `base_rate(pllSource) * multiplier / prediv` — and in the
concrete scenario PLL source = HSE (8 MHz), multiplier 9, prediv 1,
system source = PLL, `get_system_clock_rate` returns 72000000. -/
theorem C2_system_clock_rate (s : RCCState) :
    (get_system_clock_rate (update_system_clock_rate s)
      = (if s.systemSource = Clock.PLL
          then base_rate s.pllSource * s.pllMultiplier / s.pllPredivFactor
          else base_rate s.systemSource))
    ∧ get_system_clock_rate
        (set_system_clock_source
          { enabled := fun _ => true
            systemSource := Clock.HSI
            pllSource := Clock.HSE
            pllMultiplier := 9
            pllPredivFactor := 1
            clockRate := 0 } Clock.PLL) = 72000000 :=
  ⟨rfl, rfl⟩

/-- Observable actions of `RCC::set_system_clock_source`, in program
order: the configuration-register write, the `dsb` synchronization
barrier, and the actions of the rate recomputation. -/
inductive RCCEvent where
  | writeSystemClockSource (c : Clock)
  | barrier
  | readClockStatus
  | writeCachedRate
deriving DecidableEq

/-- Modelled from the spec: the rate recomputation
(`clock_control::clock_rate::update_system_clock_rate`, not in the
given source) reads the clock status and configuration, then writes the
cached derived rate. -/
def update_system_clock_rate_trace : List RCCEvent :=
  [RCCEvent.readClockStatus, RCCEvent.writeCachedRate]

/-- Event trace of `RCC::set_system_clock_source`, mirroring the
statement order of the source body: `cfgr.set_system_clock_source`,
then `dsb()`, then `clock_rate::update_system_clock_rate()`. -/
def set_system_clock_source_trace (c : Clock) : List RCCEvent :=
  [RCCEvent.writeSystemClockSource c] ++ [RCCEvent.barrier]
    ++ update_system_clock_rate_trace

/-- C3: in `set_system_clock_source`, for every clock, the
configuration write happens strictly before the barrier, the barrier
strictly before every read of clock status, and the rate recomputation
follows immediately within the same operation's trace. -/
theorem C3_barrier_orders_recompute (c : Clock) :
    ∃ iW iB, iW < iB
      ∧ (set_system_clock_source_trace c).get? iW
          = some (RCCEvent.writeSystemClockSource c)
      ∧ (set_system_clock_source_trace c).get? iB = some RCCEvent.barrier
      ∧ (∀ j, (set_system_clock_source_trace c).get? j
            = some RCCEvent.readClockStatus → iB < j)
      ∧ (set_system_clock_source_trace c).get? (iB + 1)
          = some RCCEvent.readClockStatus
      ∧ (set_system_clock_source_trace c).get? (iB + 2)
          = some RCCEvent.writeCachedRate := by
  refine ⟨0, 1, by omega, rfl, rfl, ?_, rfl, rfl⟩
  intro j hj
  match j with
  | 0 => simp [set_system_clock_source_trace, update_system_clock_rate_trace] at hj
  | 1 => simp [set_system_clock_source_trace, update_system_clock_rate_trace] at hj
  | 2 => omega
  | n + 3 => omega

/-! ## GPIO alternate-function routing (`src/peripheral/gpio/mod.rs`)

The port-to-sub-register dispatch of `set_function`/`get_function` is in
the given source; the AFRL/AFRH sub-register operations live in the
missing `gpio/afr.rs` and are modelled from the spec's bitfield rules
(a 16-valued selector, 4-bit field at offset `index * width`, index
domain split at port 7/8). -/

/-- The register block of one GPIO group, field for field as the source struct declares it. -/
structure RawGpio where
  moder : Nat
  otyper : Nat
  ospeedr : Nat
  pupdr : Nat
  idr : Nat
  odr : Nat
  bsrr : Nat
  lckr : Nat
  afrl : Nat
  afrh : Nat
  brr : Nat
deriving DecidableEq

/-- Modelled from the spec: `AFRL/AFRH::set_function` of the missing
`gpio/afr.rs` — writes the 16-valued alternate-function selector into
the 4-bit field at bit offset `idx * 4` of the sub-register word,
clearing the field's span first. -/
def afr_set_function (reg : Nat) (function : Fin 16) (idx : Nat) : Nat :=
  setField (0xF <<< (idx * 4)) ((function : Nat) <<< (idx * 4)) reg

/-- Modelled from the spec: `AFRL/AFRH::get_function` of the missing
`gpio/afr.rs` — reads the 4-bit field at bit offset `idx * 4`. -/
def afr_get_function (reg : Nat) (idx : Nat) : Nat :=
  (reg >>> (idx * 4)) &&& 0xF

/-- RawGpio::set_function — routes ports 0–7 to AFRL and ports 8–15 to
AFRH, exactly as the `match` in the source; any other port hits the
abort arm, modelled as `none`. -/
def RawGpio.set_function (g : RawGpio) (function : Fin 16) (port : Nat) :
    Option RawGpio :=
  if port ≤ 7 then some { g with afrl := afr_set_function g.afrl function port }
  else if port ≤ 15 then
    some { g with afrh := afr_set_function g.afrh function (port - 8) }
  else none

/-- RawGpio::get_function — same routing as `set_function`, reading the
selector back; the abort arm is `none`. -/
def RawGpio.get_function (g : RawGpio) (port : Nat) : Option Nat :=
  if port ≤ 7 then some (afr_get_function g.afrl port)
  else if port ≤ 15 then some (afr_get_function g.afrh (port - 8))
  else none

/-- C6: `set_function` and `get_function` route ports 0–7 to the low
sub-register AFRL (leaving AFRH and every other register untouched) and
ports 8–15 to the high sub-register AFRH at field index `port - 8`
(leaving AFRL and every other register untouched); for every port above
15 both abort (`none`) without producing a value or touching any
register. -/
theorem C6_afr_routing (g : RawGpio) (f : Fin 16) (port : Nat) :
    (port ≤ 7 →
      (∃ g', RawGpio.set_function g f port = some g'
        ∧ g'.afrl = afr_set_function g.afrl f port
        ∧ g'.afrh = g.afrh ∧ g'.moder = g.moder ∧ g'.otyper = g.otyper
        ∧ g'.ospeedr = g.ospeedr ∧ g'.pupdr = g.pupdr ∧ g'.idr = g.idr
        ∧ g'.odr = g.odr ∧ g'.bsrr = g.bsrr ∧ g'.lckr = g.lckr
        ∧ g'.brr = g.brr)
      ∧ RawGpio.get_function g port = some (afr_get_function g.afrl port))
    ∧ (8 ≤ port → port ≤ 15 →
      (∃ g', RawGpio.set_function g f port = some g'
        ∧ g'.afrh = afr_set_function g.afrh f (port - 8)
        ∧ g'.afrl = g.afrl ∧ g'.moder = g.moder ∧ g'.otyper = g.otyper
        ∧ g'.ospeedr = g.ospeedr ∧ g'.pupdr = g.pupdr ∧ g'.idr = g.idr
        ∧ g'.odr = g.odr ∧ g'.bsrr = g.bsrr ∧ g'.lckr = g.lckr
        ∧ g'.brr = g.brr)
      ∧ RawGpio.get_function g port = some (afr_get_function g.afrh (port - 8)))
    ∧ (15 < port →
      RawGpio.set_function g f port = none
      ∧ RawGpio.get_function g port = none) := by
  refine ⟨?_, ?_, ?_⟩
  · intro h
    refine ⟨⟨{ g with afrl := afr_set_function g.afrl f port }, ?_, rfl, rfl,
      rfl, rfl, rfl, rfl, rfl, rfl, rfl, rfl, rfl⟩, ?_⟩
    · simp [RawGpio.set_function, h]
    · simp [RawGpio.get_function, h]
  · intro h8 h15
    have h7 : ¬port ≤ 7 := by omega
    refine ⟨⟨{ g with afrh := afr_set_function g.afrh f (port - 8) }, ?_, rfl,
      rfl, rfl, rfl, rfl, rfl, rfl, rfl, rfl, rfl, rfl⟩, ?_⟩
    · simp [RawGpio.set_function, h7, h15]
    · simp [RawGpio.get_function, h7, h15]
  · intro h
    have h7 : ¬port ≤ 7 := by omega
    have h15 : ¬port ≤ 15 := by omega
    exact ⟨by simp [RawGpio.set_function, h7, h15],
      by simp [RawGpio.get_function, h7, h15]⟩

/-- C6 witness: the routing theorem at a concrete GPIO block, selector
and each kind of port — low, high and invalid. -/
theorem C6_afr_routing_witness :
    (RawGpio.set_function ⟨0, 0, 0, 0, 0, 0, 0, 0, 0, 0, 0⟩ 5 16 = none)
    ∧ RawGpio.get_function ⟨0, 0, 0, 0, 0, 0, 0, 0, 0, 0, 0⟩ 16 = none :=
  (C6_afr_routing ⟨0, 0, 0, 0, 0, 0, 0, 0, 0, 0, 0⟩ 5 16).2.2 (by decide)

/-! ## DMA register layout (`src/peripheral/dma/mod.rs`)

`RawDMA` is a `#[repr(C)]` struct of `u32` fields, so each field sits at
the word offset equal to its position in the declaration order.  The
layout below lists the fields in exactly that order (`res1`, `res2`,
`res3` are the `_res1`, `_res2`, `_res3` reserved words of the source). -/

/-- One register slot of the `RawDMA` struct, in the source's names. -/
inductive DMAField where
  | isr
  | ifcr
  | ccr1
  | cndtr1
  | cpar1
  | cmar1
  | res1
  | ccr2
  | cndtr2
  | cpar2
  | cmar2
  | res2
  | ccr3
  | cndtr3
  | cpar3
  | cmar3
  | ccr4
  | cndtr4
  | cpar4
  | cmar4
  | res3
  | ccr5
  | cndtr5
  | cpar5
  | cmar5
deriving DecidableEq, BEq

/-- The fields of `RawDMA` in declaration order — between `cmar3` and
`ccr4` the source declares no reserved word. -/
def rawDMA_layout : List DMAField :=
  [DMAField.isr, DMAField.ifcr,
   DMAField.ccr1, DMAField.cndtr1, DMAField.cpar1, DMAField.cmar1, DMAField.res1,
   DMAField.ccr2, DMAField.cndtr2, DMAField.cpar2, DMAField.cmar2, DMAField.res2,
   DMAField.ccr3, DMAField.cndtr3, DMAField.cpar3, DMAField.cmar3,
   DMAField.ccr4, DMAField.cndtr4, DMAField.cpar4, DMAField.cmar4, DMAField.res3,
   DMAField.ccr5, DMAField.cndtr5, DMAField.cpar5, DMAField.cmar5]

/-- Word offset of a `RawDMA` field: its index in the declaration order
(each field is one 32-bit word under `#[repr(C)]`). -/
def rawDMA_offset (f : DMAField) : Nat := rawDMA_layout.indexOf f

/-- C5 evidence: in the declared layout, channel groups 1→2, 2→3 and
4→5 are separated by one reserved word (the control register of the
next channel sits two words after the memory-address register of the
previous one), but `ccr4` immediately follows `cmar3` with no reserved
word in between, so `ccr4` lands at word offset 16 (byte 0x40) — where
the datasheet register map has the reserved word, with `DMA_CCR4` at
byte 0x44. -/
theorem C5_dma_layout_missing_padding :
    rawDMA_offset DMAField.ccr2 = rawDMA_offset DMAField.cmar1 + 2
    ∧ rawDMA_offset DMAField.ccr3 = rawDMA_offset DMAField.cmar2 + 2
    ∧ rawDMA_offset DMAField.ccr5 = rawDMA_offset DMAField.cmar4 + 2
    ∧ rawDMA_offset DMAField.ccr4 = rawDMA_offset DMAField.cmar3 + 1
    ∧ rawDMA_offset DMAField.cmar3 = 15
    ∧ rawDMA_offset DMAField.ccr4 = 16 := by
  decide
